import Mathlib

/-!
Shallow embedding of the wave-buffer subsystem of `ctru-rs`
(`src/ctru-rs/src/services/ndsp/wave.rs`) and of the VRAM region allocator
(`src/ctru-rs/src/vram.rs`).

Machine integers are modelled as `Nat` (with explicit `% 2 ^ w` where a Rust
cast can truncate) and `Int` for signed values. Pointers are modelled as `Nat`
addresses, with `0` standing for the null pointer. External hardware
primitives (`DSP_FlushDataCache`, `DSP_InvalidateDataCache`, `vramMemAlign`,
`ndspChnWaveBufClear`) are modelled by passing their observable result in as a
parameter and recording the calls the code issues in the return value, so
that a theorem can talk about which hardware calls happen and how the code
reacts to the primitive's result. Panics (Rust `unwrap`) are modelled as
explicit failure constructors.
-/

set_option autoImplicit false

/-- Modelled from the spec: the `AudioFormat` enum and its per-sample-frame
size live in the ndsp module of the repository, which is not included under
`src/`. The spec (section 3) enumerates 8-bit PCM mono/stereo and 16-bit PCM
mono/stereo; the glossary defines frame size as the number of bytes of one
sample across all channels. -/
inductive AudioFormat where
  | PCM8Mono
  | PCM8Stereo
  | PCM16Mono
  | PCM16Stereo
  deriving DecidableEq, Repr

/-- Modelled from the spec: bytes per sample frame for each format
(`AudioFormat::sample_size` in the ndsp module, not under `src/`). -/
def AudioFormat.sample_size : AudioFormat → Nat
  | .PCM8Mono => 1
  | .PCM8Stereo => 2
  | .PCM16Mono => 2
  | .PCM16Stereo => 4

/-- Model of `Box<[u8], LinearAllocator>`: a byte block living at a LINEAR
memory address. `addr` models `data.as_ptr()`, `bytes` the block contents. -/
structure LinearBox where
  addr : Nat
  bytes : List Nat
  deriving DecidableEq, Repr

/-- Model of `ctru::Error` (the error type of `crate::Result`). -/
inductive CrateError where
  | os (code : Int)
  deriving DecidableEq, Repr

/-- The `WaveStatus` enum of `wave.rs`, with the discriminants given by
`NDSP_WBUF_FREE = 0`, `NDSP_WBUF_QUEUED = 1`, `NDSP_WBUF_PLAYING = 2`,
`NDSP_WBUF_DONE = 3`. -/
inductive WaveStatus where
  | Free
  | Queued
  | Playing
  | Done
  deriving DecidableEq, Repr

/-- Embedding of `impl TryFrom<u8> for WaveStatus` (`wave.rs` lines 99-111).
The argument is the status byte. -/
def WaveStatus.tryFrom (value : Nat) : Except String WaveStatus :=
  match value with
  | 0 => Except.ok WaveStatus.Free
  | 1 => Except.ok WaveStatus.Queued
  | 2 => Except.ok WaveStatus.Playing
  | 3 => Except.ok WaveStatus.Done
  | _ => Except.error "Invalid WaveInfo Status code"

/-- The `WaveBuffer` struct of `wave.rs`: owned byte block, format, and the
stored sample count `nsamples`. -/
structure WaveBuffer where
  data : LinearBox
  audio_format : AudioFormat
  nsamples : Nat
  deriving DecidableEq, Repr

/-- Embedding of `WaveBuffer::new` (`wave.rs` lines 34-46). `flush_result` is
the result code returned by the external `DSP_FlushDataCache` primitive
(negative means the primitive reported an error); the source binds it to `_r`
and discards it, returning `Ok` unconditionally. -/
def WaveBuffer.new (flush_result : Int) (data : LinearBox)
    (audio_format : AudioFormat) : Except CrateError WaveBuffer :=
  let nsamples : Nat := data.bytes.length / audio_format.sample_size
  let _r := flush_result
  Except.ok { data := data, audio_format := audio_format, nsamples := nsamples }

/-- Embedding of `WaveBuffer::get_format`. -/
def WaveBuffer.get_format (wb : WaveBuffer) : AudioFormat :=
  wb.audio_format

/-- Embedding of `WaveBuffer::get_sample_amount`. -/
def WaveBuffer.get_sample_amount (wb : WaveBuffer) : Nat :=
  wb.nsamples

/-- A mutation performed through the mutable byte slice returned by
`WaveBuffer::get_mut_data`. Writing through a `&mut [u8]` can change bytes at
in-range indices but can never change the slice's length, which is exactly
what `List.set` models (`List.set` is the identity out of range). -/
inductive WaveBufferOp where
  | writeByte (i : Nat) (v : Nat)
  deriving DecidableEq, Repr

/-- Applies one mutation made through `WaveBuffer::get_mut_data`. -/
def WaveBuffer.applyOp (wb : WaveBuffer) : WaveBufferOp → WaveBuffer
  | .writeByte i v =>
    { wb with data := { wb.data with bytes := wb.data.bytes.set i v } }

/-- Applies a sequence of mutations made through `WaveBuffer::get_mut_data`. -/
def WaveBuffer.applyOps (wb : WaveBuffer) (ops : List WaveBufferOp) : WaveBuffer :=
  ops.foldl WaveBuffer.applyOp wb

/-- Embedding of `impl Drop for WaveBuffer` (`wave.rs` lines 113-123).
`invalidate_result` is the result code the external `DSP_InvalidateDataCache`
primitive would report; the source binds it to `_r` and discards it
("Result can't be used in any way, let's just shrug it off"). The return
value is the list of `(address, length)` invalidate calls issued, or `none`
for the panic of `self.data.len().try_into::<u32>().unwrap()` when the length
does not fit in a `u32`. -/
def WaveBuffer.drop (invalidate_result : Int) (wb : WaveBuffer) :
    Option (List (Nat × Nat)) :=
  if wb.data.bytes.length < 2 ^ 32 then
    let _r := invalidate_result
    some [(wb.data.addr, wb.data.bytes.length)]
  else
    none

/-- The raw `ctru_sys::ndspWaveBuf` hardware descriptor. Pointer fields
(`data_vaddr`, `adpcm_data`, `next`) are addresses with `0` for null. -/
structure NdspWaveBuf where
  data_vaddr : Nat
  nsamples : Nat
  adpcm_data : Nat
  offset : Nat
  looping : Bool
  status : Nat
  sequence_id : Nat
  next : Nat
  deriving DecidableEq, Repr

/-- The `WaveInfo` struct of `wave.rs`. The Rust field is a mutable borrow
`&'b mut WaveBuffer`; the embedding holds the borrowed buffer by value. -/
structure WaveInfo where
  buffer : WaveBuffer
  raw_data : NdspWaveBuf
  played_on_channel : Option Nat
  deriving DecidableEq, Repr

/-- Embedding of `WaveInfo::new` (`wave.rs` lines 62-84). The Rust cast
`buffer.get_sample_amount() as u32` truncates modulo `2 ^ 32`. -/
def WaveInfo.new (buffer : WaveBuffer) (looping : Bool) : WaveInfo :=
  let address := buffer.data.addr
  let raw_data : NdspWaveBuf :=
    { data_vaddr := address
      nsamples := buffer.get_sample_amount % 2 ^ 32
      adpcm_data := 0
      offset := 0
      looping := looping
      status := 0
      sequence_id := 0
      next := 0 }
  { buffer := buffer, raw_data := raw_data, played_on_channel := none }

/-- Embedding of `WaveInfo::get_status` (`wave.rs` lines 90-92):
`self.raw_data.status.try_into().unwrap()`. `none` models the panic of the
`unwrap` on an invalid status byte. -/
def WaveInfo.get_status (w : WaveInfo) : Option WaveStatus :=
  (WaveStatus.tryFrom w.raw_data.status).toOption

/-- Embedding of `WaveInfo::set_channel` (`wave.rs` lines 94-96). The Rust
cast `id as u8` of the `i32` argument keeps the low byte, i.e. `id % 256`
(Lean's `Int.emod` with a positive modulus lands in `[0, 256)`, matching the
two's-complement low byte). -/
def WaveInfo.set_channel (w : WaveInfo) (id : Int) : WaveInfo :=
  { w with played_on_channel := some (id % 256).toNat }

/-- Outcome of `impl Drop for WaveInfo`: `ok calls` means the drop ran to
completion issuing `ndspChnWaveBufClear` once per listed channel id;
`statusPanic` is the panic of the `unwrap` inside `get_status` on an invalid
status byte; `channelPanic` is the panic of `self.played_on_channel.unwrap()`
when no channel was recorded. -/
inductive WaveInfoDropResult where
  | ok (clears : List Nat)
  | statusPanic
  | channelPanic
  deriving DecidableEq, Repr

/-- Embedding of `impl Drop for WaveInfo` (`wave.rs` lines 125-138): match on
`get_status()`; `Free | Done` issue nothing; any other status issues
`ndspChnWaveBufClear(self.played_on_channel.unwrap().into())`. -/
def WaveInfo.drop (w : WaveInfo) : WaveInfoDropResult :=
  match WaveStatus.tryFrom w.raw_data.status with
  | .error _ => WaveInfoDropResult.statusPanic
  | .ok .Free => WaveInfoDropResult.ok []
  | .ok .Done => WaveInfoDropResult.ok []
  | .ok _ =>
    match w.played_on_channel with
    | none => WaveInfoDropResult.channelPanic
    | some c => WaveInfoDropResult.ok [c]

/-- Model of `std::alloc::Layout`: requested size and alignment. -/
structure Layout where
  size : Nat
  align : Nat
  deriving DecidableEq, Repr

/-- Model of `std::alloc::AllocError`. -/
inductive AllocError where
  | allocError
  deriving DecidableEq, Repr

/-- Embedding of `VramAllocator::allocate` (`vram.rs` lines 25-33).
`vramMemAlign` is the external pool primitive, taking `(size, align)` and
returning a pointer (`0` is null). On success the code returns the fat
pointer `NonNull::slice_from_raw_parts(ptr, layout.size())`, modelled as the
pair `(address, length)`. -/
def VramAllocator.allocate (vramMemAlign : Nat → Nat → Nat) (layout : Layout) :
    Except AllocError (Nat × Nat) :=
  let pointer := vramMemAlign layout.size layout.align
  if pointer = 0 then
    Except.error AllocError.allocError
  else
    Except.ok (pointer, layout.size)

/-- C2: decoding a status byte yields `Free` for 0, `Queued` for 1, `Playing`
for 2 and `Done` for 3; every other byte value makes `TryFrom` return an
error and makes `WaveInfo::get_status` panic (modelled as `none`), never a
silently-wrong state. -/
theorem waveStatus_decode_total (v : Nat)
    (h : ¬(v = 0 ∨ v = 1 ∨ v = 2 ∨ v = 3)) :
    WaveStatus.tryFrom 0 = Except.ok WaveStatus.Free ∧
    WaveStatus.tryFrom 1 = Except.ok WaveStatus.Queued ∧
    WaveStatus.tryFrom 2 = Except.ok WaveStatus.Playing ∧
    WaveStatus.tryFrom 3 = Except.ok WaveStatus.Done ∧
    WaveStatus.tryFrom v = Except.error "Invalid WaveInfo Status code" ∧
    (∀ w : WaveInfo, w.raw_data.status = v → w.get_status = none) := by
  obtain ⟨k, rfl⟩ : ∃ k, v = k + 4 := ⟨v - 4, by omega⟩
  refine ⟨rfl, rfl, rfl, rfl, rfl, ?_⟩
  intro w hw
  simp [WaveInfo.get_status, hw, WaveStatus.tryFrom, Except.toOption]

/-- C2 witness: the four valid codes decode as stated and the byte 4 is
rejected both by the conversion and by the status accessor. -/
theorem waveStatus_decode_total_witness :
    WaveStatus.tryFrom 0 = Except.ok WaveStatus.Free ∧
    WaveStatus.tryFrom 1 = Except.ok WaveStatus.Queued ∧
    WaveStatus.tryFrom 2 = Except.ok WaveStatus.Playing ∧
    WaveStatus.tryFrom 3 = Except.ok WaveStatus.Done ∧
    WaveStatus.tryFrom 4 = Except.error "Invalid WaveInfo Status code" ∧
    (∀ w : WaveInfo, w.raw_data.status = 4 → w.get_status = none) :=
  waveStatus_decode_total 4 (by decide)

/-- C3 counterexample: the flush primitive reports an error (a negative
result code), yet `WaveBuffer::new` still returns `Ok` — the construction
does not surface the flush failure, refuting the claim at this input. -/
theorem waveBuffer_new_flush_error_cex :
    ((-1 : Int) < 0) ∧
    (WaveBuffer.new (-1) (LinearBox.mk 4096 [1, 2, 3, 4])
      AudioFormat.PCM16Mono).isOk = true := by
  exact ⟨by decide, rfl⟩

/-- C3 amended: `WaveBuffer::new` binds the result of `DSP_FlushDataCache` to
`_r` and discards it; for every flush result (error or not), every byte block
and every format, construction returns `Ok`. -/
theorem waveBuffer_new_always_ok (flush_result : Int) (data : LinearBox)
    (audio_format : AudioFormat) :
    (WaveBuffer.new flush_result data audio_format).isOk = true := rfl

/-- C4: `WaveBuffer::new` sets the sample count to the block's byte length
divided by the format's per-sample-frame size. -/
theorem waveBuffer_new_sample_count (flush_result : Int) (data : LinearBox)
    (audio_format : AudioFormat) (wb : WaveBuffer)
    (h : WaveBuffer.new flush_result data audio_format = Except.ok wb) :
    wb.get_sample_amount = data.bytes.length / audio_format.sample_size := by
  cases h
  rfl

/-- C4 witness: a 6-byte block in 16-bit mono PCM yields 3 samples. -/
theorem waveBuffer_new_sample_count_witness :
    (WaveBuffer.mk (LinearBox.mk 0 [1, 2, 3, 4, 5, 6])
        AudioFormat.PCM16Mono 3).get_sample_amount
      = [1, 2, 3, 4, 5, 6].length / AudioFormat.PCM16Mono.sample_size :=
  waveBuffer_new_sample_count 0 (LinearBox.mk 0 [1, 2, 3, 4, 5, 6])
    AudioFormat.PCM16Mono _ (by simp [WaveBuffer.new, AudioFormat.sample_size])

/-- Mutations through `get_mut_data` change neither the stored sample count,
nor the format, nor the byte length of the buffer. -/
theorem WaveBuffer.applyOps_preserves (ops : List WaveBufferOp) (wb : WaveBuffer) :
    (wb.applyOps ops).nsamples = wb.nsamples ∧
    (wb.applyOps ops).audio_format = wb.audio_format ∧
    (wb.applyOps ops).data.bytes.length = wb.data.bytes.length := by
  induction ops generalizing wb with
  | nil => exact ⟨rfl, rfl, rfl⟩
  | cons op rest ih =>
    have h := ih (wb.applyOp op)
    have hstep : (wb.applyOp op).nsamples = wb.nsamples ∧
        (wb.applyOp op).audio_format = wb.audio_format ∧
        (wb.applyOp op).data.bytes.length = wb.data.bytes.length := by
      cases op with
      | writeByte i v => simp [WaveBuffer.applyOp]
    have hfold : wb.applyOps (op :: rest) = (wb.applyOp op).applyOps rest := rfl
    rw [hfold]
    exact ⟨h.1.trans hstep.1, h.2.1.trans hstep.2.1, h.2.2.trans hstep.2.2⟩

/-- C5: after construction and any sequence of mutations through the mutable
view, the sample count reported by `get_sample_amount` equals the current
byte length of the buffer divided by the frame size of its format — the two
can never desynchronize. -/
theorem waveBuffer_sample_count_invariant (flush_result : Int)
    (data : LinearBox) (audio_format : AudioFormat) (wb : WaveBuffer)
    (ops : List WaveBufferOp)
    (h : WaveBuffer.new flush_result data audio_format = Except.ok wb) :
    (wb.applyOps ops).get_sample_amount =
      (wb.applyOps ops).data.bytes.length /
        (wb.applyOps ops).get_format.sample_size := by
  cases h
  obtain ⟨h1, h2, h3⟩ := WaveBuffer.applyOps_preserves ops
    { data := data, audio_format := audio_format,
      nsamples := data.bytes.length / audio_format.sample_size }
  simp only [WaveBuffer.get_sample_amount, WaveBuffer.get_format, h1, h2, h3]

/-- C5 witness: a 4-byte stereo 8-bit buffer reports 2 samples after a write
through the mutable view. -/
theorem waveBuffer_sample_count_invariant_witness :
    ((WaveBuffer.mk (LinearBox.mk 64 [9, 9, 9, 9]) AudioFormat.PCM8Stereo
        2).applyOps [WaveBufferOp.writeByte 1 250]).get_sample_amount =
      ((WaveBuffer.mk (LinearBox.mk 64 [9, 9, 9, 9]) AudioFormat.PCM8Stereo
        2).applyOps [WaveBufferOp.writeByte 1 250]).data.bytes.length /
        ((WaveBuffer.mk (LinearBox.mk 64 [9, 9, 9, 9]) AudioFormat.PCM8Stereo
        2).applyOps [WaveBufferOp.writeByte 1 250]).get_format.sample_size :=
  waveBuffer_sample_count_invariant 0 (LinearBox.mk 64 [9, 9, 9, 9])
    AudioFormat.PCM8Stereo _ [WaveBufferOp.writeByte 1 250]
    (by simp [WaveBuffer.new, AudioFormat.sample_size])

/-- C6: `WaveInfo::new` builds a descriptor whose address is the buffer's
data address, whose sample count equals the buffer's sample count (the
`as u32` cast is lossless under the 32-bit-`usize` bound), and whose loop
flag is the given value; it records no channel, and the hardware-owned
fields start as status 0 (decoding to `Free`), sequence id 0 and a null
link pointer. -/
theorem waveInfo_new_descriptor (wb : WaveBuffer) (looping : Bool)
    (h : wb.get_sample_amount < 2 ^ 32) :
    (WaveInfo.new wb looping).raw_data.data_vaddr = wb.data.addr ∧
    (WaveInfo.new wb looping).raw_data.nsamples = wb.get_sample_amount ∧
    (WaveInfo.new wb looping).raw_data.looping = looping ∧
    (WaveInfo.new wb looping).played_on_channel = none ∧
    (WaveInfo.new wb looping).raw_data.status = 0 ∧
    (WaveInfo.new wb looping).raw_data.sequence_id = 0 ∧
    (WaveInfo.new wb looping).raw_data.next = 0 ∧
    (WaveInfo.new wb looping).get_status = some WaveStatus.Free := by
  refine ⟨rfl, ?_, rfl, rfl, rfl, rfl, rfl, rfl⟩
  exact Nat.mod_eq_of_lt h

/-- C6 witness: the descriptor built over a concrete 2-sample buffer. -/
theorem waveInfo_new_descriptor_witness :
    (WaveInfo.new (WaveBuffer.mk (LinearBox.mk 77 [1, 2]) AudioFormat.PCM8Mono
        2) true).raw_data.data_vaddr =
      (WaveBuffer.mk (LinearBox.mk 77 [1, 2]) AudioFormat.PCM8Mono
        2).data.addr ∧
    (WaveInfo.new (WaveBuffer.mk (LinearBox.mk 77 [1, 2]) AudioFormat.PCM8Mono
        2) true).raw_data.nsamples =
      (WaveBuffer.mk (LinearBox.mk 77 [1, 2]) AudioFormat.PCM8Mono
        2).get_sample_amount ∧
    (WaveInfo.new (WaveBuffer.mk (LinearBox.mk 77 [1, 2]) AudioFormat.PCM8Mono
        2) true).raw_data.looping = true ∧
    (WaveInfo.new (WaveBuffer.mk (LinearBox.mk 77 [1, 2]) AudioFormat.PCM8Mono
        2) true).played_on_channel = none ∧
    (WaveInfo.new (WaveBuffer.mk (LinearBox.mk 77 [1, 2]) AudioFormat.PCM8Mono
        2) true).raw_data.status = 0 ∧
    (WaveInfo.new (WaveBuffer.mk (LinearBox.mk 77 [1, 2]) AudioFormat.PCM8Mono
        2) true).raw_data.sequence_id = 0 ∧
    (WaveInfo.new (WaveBuffer.mk (LinearBox.mk 77 [1, 2]) AudioFormat.PCM8Mono
        2) true).raw_data.next = 0 ∧
    (WaveInfo.new (WaveBuffer.mk (LinearBox.mk 77 [1, 2]) AudioFormat.PCM8Mono
        2) true).get_status = some WaveStatus.Free :=
  waveInfo_new_descriptor
    (WaveBuffer.mk (LinearBox.mk 77 [1, 2]) AudioFormat.PCM8Mono 2) true
    (by decide)

/-- C9: destroying a `WaveBuffer` always issues exactly one cache-invalidate
call on the owned memory block (address and full length), for every
invalidate result code — a failure reported by the primitive is swallowed and
never propagated out of the drop. -/
theorem waveBuffer_drop_invalidate (invalidate_result : Int) (wb : WaveBuffer)
    (h : wb.data.bytes.length < 2 ^ 32) :
    WaveBuffer.drop invalidate_result wb =
      some [(wb.data.addr, wb.data.bytes.length)] := by
  unfold WaveBuffer.drop
  rw [if_pos h]

/-- C9 witness: dropping a concrete 3-byte buffer with a failing invalidate
primitive (result code -1) still completes, issuing the one invalidate. -/
theorem waveBuffer_drop_invalidate_witness :
    WaveBuffer.drop (-1)
        (WaveBuffer.mk (LinearBox.mk 512 [7, 8, 9]) AudioFormat.PCM8Mono 3) =
      some [((LinearBox.mk 512 [7, 8, 9]).addr,
        (LinearBox.mk 512 [7, 8, 9]).bytes.length)] :=
  waveBuffer_drop_invalidate (-1)
    (WaveBuffer.mk (LinearBox.mk 512 [7, 8, 9]) AudioFormat.PCM8Mono 3)
    (by decide)

/-- C1: when a `WaveInfo` is dropped with status reading `Free` or `Done`,
zero `ndspChnWaveBufClear` calls are issued; with status reading `Queued` or
`Playing`, exactly one clear call is issued, on the channel recorded for the
handle. -/
theorem waveInfo_drop_clear_calls (w : WaveInfo) (c : Nat) :
    ((w.get_status = some WaveStatus.Free ∨
      w.get_status = some WaveStatus.Done) →
      w.drop = WaveInfoDropResult.ok []) ∧
    ((w.get_status = some WaveStatus.Queued ∨
      w.get_status = some WaveStatus.Playing) →
      w.played_on_channel = some c →
      w.drop = WaveInfoDropResult.ok [c]) := by
  cases hs : WaveStatus.tryFrom w.raw_data.status with
  | error e =>
    have hgs : w.get_status = none := by
      simp [WaveInfo.get_status, hs, Except.toOption]
    constructor
    · intro hor
      rcases hor with h | h <;> simp [hgs] at h
    · intro hor hc
      rcases hor with h | h <;> simp [hgs] at h
  | ok s =>
    have hgs : w.get_status = some s := by
      simp [WaveInfo.get_status, hs, Except.toOption]
    cases s with
    | Free =>
      constructor
      · intro _
        simp [WaveInfo.drop, hs]
      · intro hor hc
        rcases hor with h | h <;> simp [hgs] at h
    | Done =>
      constructor
      · intro _
        simp [WaveInfo.drop, hs]
      · intro hor hc
        rcases hor with h | h <;> simp [hgs] at h
    | Queued =>
      constructor
      · intro hor
        rcases hor with h | h <;> simp [hgs] at h
      · intro _ hc
        simp [WaveInfo.drop, hs, hc]
    | Playing =>
      constructor
      · intro hor
        rcases hor with h | h <;> simp [hgs] at h
      · intro _ hc
        simp [WaveInfo.drop, hs, hc]

/-- C1 witness: a handle dropped with status `Free` issues no clear call, and
a handle dropped with status `Playing` and recorded channel 3 issues exactly
one clear on channel 3. -/
theorem waveInfo_drop_clear_calls_witness :
    (WaveInfo.mk
        (WaveBuffer.mk (LinearBox.mk 10 [1, 2]) AudioFormat.PCM8Mono 2)
        (NdspWaveBuf.mk 10 2 0 0 false 0 0 0) none).drop =
      WaveInfoDropResult.ok [] ∧
    (WaveInfo.mk
        (WaveBuffer.mk (LinearBox.mk 10 [1, 2]) AudioFormat.PCM8Mono 2)
        (NdspWaveBuf.mk 10 2 0 0 false 2 1 0) (some 3)).drop =
      WaveInfoDropResult.ok [3] :=
  ⟨(waveInfo_drop_clear_calls
      (WaveInfo.mk
        (WaveBuffer.mk (LinearBox.mk 10 [1, 2]) AudioFormat.PCM8Mono 2)
        (NdspWaveBuf.mk 10 2 0 0 false 0 0 0) none) 0).1
      (Or.inl (by decide)),
   (waveInfo_drop_clear_calls
      (WaveInfo.mk
        (WaveBuffer.mk (LinearBox.mk 10 [1, 2]) AudioFormat.PCM8Mono 2)
        (NdspWaveBuf.mk 10 2 0 0 false 2 1 0) (some 3)) 3).2
      (Or.inr (by decide)) rfl⟩

/-- C7 counterexample: passing the channel id 256 to `set_channel` records
the low byte 0, not 256 — the `id as u8` cast truncates, refuting the claim
that the handle records exactly the id that was passed. -/
theorem waveInfo_set_channel_cex :
    ((WaveInfo.new
        (WaveBuffer.mk (LinearBox.mk 0 []) AudioFormat.PCM8Mono 0)
        false).set_channel 256).played_on_channel = some 0 ∧
    ((WaveInfo.new
        (WaveBuffer.mk (LinearBox.mk 0 []) AudioFormat.PCM8Mono 0)
        false).set_channel 256).played_on_channel ≠ some 256 := by
  decide

/-- C7 amended: `set_channel` records the low byte of the id (`id % 256`,
matching the `as u8` cast); in particular it records exactly `id` whenever
`0 ≤ id < 256`, and the safe-teardown clear of the drop uses the recorded
channel. -/
theorem waveInfo_set_channel_records_mod (w : WaveInfo) (id : Int) :
    (w.set_channel id).played_on_channel = some (id % 256).toNat ∧
    (0 ≤ id → id < 256 →
      (w.set_channel id).played_on_channel = some id.toNat) ∧
    (((w.set_channel id).get_status = some WaveStatus.Queued ∨
      (w.set_channel id).get_status = some WaveStatus.Playing) →
      (w.set_channel id).drop =
        WaveInfoDropResult.ok [(id % 256).toNat]) := by
  refine ⟨rfl, ?_, ?_⟩
  · intro h0 h256
    simp [WaveInfo.set_channel, Int.emod_eq_of_lt h0 h256]
  · intro hor
    have hc : (w.set_channel id).played_on_channel = some (id % 256).toNat :=
      rfl
    cases hs : WaveStatus.tryFrom (w.set_channel id).raw_data.status with
    | error e =>
      have hgs : (w.set_channel id).get_status = none := by
        simp [WaveInfo.get_status, hs, Except.toOption]
      rcases hor with h | h <;> simp [hgs] at h
    | ok s =>
      have hgs : (w.set_channel id).get_status = some s := by
        simp [WaveInfo.get_status, hs, Except.toOption]
      cases s with
      | Free => rcases hor with h | h <;> simp [hgs] at h
      | Done => rcases hor with h | h <;> simp [hgs] at h
      | Queued => simp [WaveInfo.drop, hs, hc]
      | Playing => simp [WaveInfo.drop, hs, hc]

/-- C7 witness for the amended claim: recording channel 3 on a queued handle
stores 3 and its drop clears exactly channel 3. -/
theorem waveInfo_set_channel_records_mod_witness :
    ((WaveInfo.mk
        (WaveBuffer.mk (LinearBox.mk 10 [1, 2]) AudioFormat.PCM8Mono 2)
        (NdspWaveBuf.mk 10 2 0 0 false 1 0 0) none).set_channel 3).drop =
      WaveInfoDropResult.ok [((3 : Int) % 256).toNat] :=
  (waveInfo_set_channel_records_mod
      (WaveInfo.mk
        (WaveBuffer.mk (LinearBox.mk 10 [1, 2]) AudioFormat.PCM8Mono 2)
        (NdspWaveBuf.mk 10 2 0 0 false 1 0 0) none) 3).2.2
    (Or.inl (by decide))

/-- C8: `VramAllocator::allocate` returns the `AllocError` failure value —
it does not panic or abort — exactly when the backing `vramMemAlign`
primitive returns null, and on success the returned block is the primitive's
pointer with exactly the requested size. -/
theorem vramAllocator_allocate_spec (vramMemAlign : Nat → Nat → Nat)
    (layout : Layout) :
    (vramMemAlign layout.size layout.align = 0 →
      VramAllocator.allocate vramMemAlign layout =
        Except.error AllocError.allocError) ∧
    (vramMemAlign layout.size layout.align ≠ 0 →
      VramAllocator.allocate vramMemAlign layout =
        Except.ok (vramMemAlign layout.size layout.align, layout.size)) := by
  constructor
  · intro h
    simp [VramAllocator.allocate, h]
  · intro h
    simp [VramAllocator.allocate, h]

/-- C8 witness: a pool that returns null makes a 16-byte request fail with
`AllocError`, and a pool that returns the pointer 4096 yields a block of
exactly the requested 16 bytes. -/
theorem vramAllocator_allocate_spec_witness :
    VramAllocator.allocate (fun _ _ => 0) (Layout.mk 16 8) =
      Except.error AllocError.allocError ∧
    VramAllocator.allocate (fun _ _ => 4096) (Layout.mk 16 8) =
      Except.ok (4096, 16) :=
  ⟨(vramAllocator_allocate_spec (fun _ _ => 0) (Layout.mk 16 8)).1 rfl,
   (vramAllocator_allocate_spec (fun _ _ => 4096) (Layout.mk 16 8)).2
     (by decide)⟩

/-- C10: if the status reads `Queued` or `Playing` at drop time but no
channel was ever recorded, the drop panics on the missing channel
(`played_on_channel.unwrap()`) instead of performing a clear; and whenever a
status of `Queued` or `Playing` implies a recorded channel, that panic branch
is unreachable. -/
theorem waveInfo_drop_missing_channel (w : WaveInfo) :
    (((w.get_status = some WaveStatus.Queued ∨
        w.get_status = some WaveStatus.Playing) ∧
      w.played_on_channel = none) →
      w.drop = WaveInfoDropResult.channelPanic) ∧
    (((w.get_status = some WaveStatus.Queued ∨
        w.get_status = some WaveStatus.Playing) →
      w.played_on_channel ≠ none) →
      w.drop ≠ WaveInfoDropResult.channelPanic) := by
  cases hs : WaveStatus.tryFrom w.raw_data.status with
  | error e =>
    have hgs : w.get_status = none := by
      simp [WaveInfo.get_status, hs, Except.toOption]
    constructor
    · rintro ⟨hor, hc⟩
      rcases hor with h | h <;> simp [hgs] at h
    · intro _
      simp [WaveInfo.drop, hs]
  | ok s =>
    have hgs : w.get_status = some s := by
      simp [WaveInfo.get_status, hs, Except.toOption]
    cases s with
    | Free =>
      constructor
      · rintro ⟨hor, hc⟩
        rcases hor with h | h <;> simp [hgs] at h
      · intro _
        simp [WaveInfo.drop, hs]
    | Done =>
      constructor
      · rintro ⟨hor, hc⟩
        rcases hor with h | h <;> simp [hgs] at h
      · intro _
        simp [WaveInfo.drop, hs]
    | Queued =>
      constructor
      · rintro ⟨hor, hc⟩
        simp [WaveInfo.drop, hs, hc]
      · intro himp
        have hc := himp (Or.inl hgs)
        cases hcc : w.played_on_channel with
        | none => exact absurd hcc hc
        | some c => simp [WaveInfo.drop, hs, hcc]
    | Playing =>
      constructor
      · rintro ⟨hor, hc⟩
        simp [WaveInfo.drop, hs, hc]
      · intro himp
        have hc := himp (Or.inr hgs)
        cases hcc : w.played_on_channel with
        | none => exact absurd hcc hc
        | some c => simp [WaveInfo.drop, hs, hcc]

/-- C10 witness: a queued handle with no recorded channel panics on the
missing channel at drop time, while the same handle with channel 0 recorded
does not hit that panic. -/
theorem waveInfo_drop_missing_channel_witness :
    (WaveInfo.mk
        (WaveBuffer.mk (LinearBox.mk 10 [1, 2]) AudioFormat.PCM8Mono 2)
        (NdspWaveBuf.mk 10 2 0 0 false 1 0 0) none).drop =
      WaveInfoDropResult.channelPanic ∧
    (WaveInfo.mk
        (WaveBuffer.mk (LinearBox.mk 10 [1, 2]) AudioFormat.PCM8Mono 2)
        (NdspWaveBuf.mk 10 2 0 0 false 1 0 0) (some 0)).drop ≠
      WaveInfoDropResult.channelPanic :=
  ⟨(waveInfo_drop_missing_channel
      (WaveInfo.mk
        (WaveBuffer.mk (LinearBox.mk 10 [1, 2]) AudioFormat.PCM8Mono 2)
        (NdspWaveBuf.mk 10 2 0 0 false 1 0 0) none)).1
      ⟨Or.inl (by decide), rfl⟩,
   (waveInfo_drop_missing_channel
      (WaveInfo.mk
        (WaveBuffer.mk (LinearBox.mk 10 [1, 2]) AudioFormat.PCM8Mono 2)
        (NdspWaveBuf.mk 10 2 0 0 false 1 0 0) (some 0))).2
      (fun _ => by decide)⟩
